import Mathlib

/-!
Shallow embedding of src/scoreboard.js (MLB box-score CLI renderer).

Styled terminal text is modelled as a list of tokens: an ANSI escape
sequence (zero visible width) or a printable character.  JavaScript
strings that may be absent are modelled as Option; JS template-literal
interpolation of undefined is modelled explicitly.  JS String.repeat
with a negative count raises a RangeError; fallible operations return
Except.
-/

namespace Scoreboard

/-- Token of a styled terminal string: either an ANSI escape sequence
(carrying its code, zero visible width) or a printable character. -/
inductive Tok where
  | esc (code : String)
  | chr (c : Char)
deriving DecidableEq

/-- Styled string: a sequence of tokens. -/
abbrev SStr := List Tok

/-- Embed a plain Lean string as a styled string of printable characters. -/
def str (s : String) : SStr := s.toList.map Tok.chr

/-- Visible width of one character.  Models the string-width package,
simplified: characters below U+1100 (all ASCII and the glyphs this
program prints) are narrow (width 1), the rest (CJK, emoji) wide (2). -/
def charWidth (c : Char) : Nat := if c.toNat < 0x1100 then 1 else 2

/-- Visible width of a token: escapes count 0, characters their width. -/
def tokWidth : Tok → Nat
  | Tok.esc _ => 0
  | Tok.chr c => charWidth c

/-- Models stringWidth(str): visible width ignoring ANSI escapes. -/
def stringWidth (s : SStr) : Nat := (s.map tokWidth).sum

/-- Wrap a styled string in an opening and closing ANSI escape,
modelling one chalk styling call. -/
def wrapEsc (openCode closeCode : String) (s : SStr) : SStr :=
  Tok.esc openCode :: s ++ [Tok.esc closeCode]

def chalkWhite (s : SStr) : SStr := wrapEsc "37" "39" s
def chalkBoldWhite (s : SStr) : SStr := wrapEsc "1" "22" (wrapEsc "37" "39" s)
def chalkRed (s : SStr) : SStr := wrapEsc "31" "39" s
def chalkGreen (s : SStr) : SStr := wrapEsc "32" "39" s
def chalkYellow (s : SStr) : SStr := wrapEsc "33" "39" s
def chalkCyan (s : SStr) : SStr := wrapEsc "36" "39" s
def chalkMagenta (s : SStr) : SStr := wrapEsc "35" "39" s
def chalkBgWhiteBlack (s : SStr) : SStr := wrapEsc "47" "49" (wrapEsc "30" "39" s)
def chalkGreenBold (s : SStr) : SStr := wrapEsc "32" "39" (wrapEsc "1" "22" s)
def chalkBoldGreen (s : SStr) : SStr := wrapEsc "1" "22" (wrapEsc "32" "39" s)

/-- Embedding of padtoWidth(str, targetWidth):
padding = Math.max(0, targetWidth - stringWidth(str)) (truncated Nat
subtraction models the max with 0); returns str + repeated spaces. -/
def padtoWidth (s : SStr) (targetWidth : Nat) : SStr :=
  s ++ List.replicate (targetWidth - stringWidth s) (Tok.chr ' ')

/-- Embedding of JS String.prototype.repeat: s.repeat(n) raises a
RangeError when n is negative, otherwise concatenates n copies. -/
def jsRepeat (s : SStr) (n : Int) : Except String SStr :=
  if n < 0 then Except.error "RangeError: Invalid count value"
  else Except.ok (List.flatten (List.replicate n.toNat s))

/-- Embedding of renderCircles(count, total, filled, empty):
filled.repeat(count) + empty.repeat(total - count), where either
repeat raises on a negative count. -/
def renderCircles (count total : Int) (filled e : SStr) : Except String SStr := do
  let a ← jsRepeat filled count
  let b ← jsRepeat e (total - count)
  pure (a ++ b)

/-- Boolean test that sub is a prefix of l (character lists). -/
def isPrefixB : List Char → List Char → Bool
  | [], _ => true
  | _ :: _, [] => false
  | c :: cs, d :: ds => c == d && isPrefixB cs ds

/-- Boolean test that sub occurs as a contiguous substring of l. -/
def includesB (sub : List Char) : List Char → Bool
  | [] => isPrefixB sub []
  | c :: t => isPrefixB sub (c :: t) || includesB sub (c :: t).tail

/-- Embedding of JS s.includes(sub): substring containment. -/
def jsIncludes (s sub : String) : Bool := includesB sub.toList s.toList

/-- Models JS template-literal interpolation of a possibly-undefined
string value: undefined prints as the literal text "undefined". -/
def jsUndefToString : Option String → String
  | none => "undefined"
  | some s => s

/-- Models JS template-literal interpolation of a possibly-undefined
number value. -/
def jsNumToString : Option Nat → String
  | none => "undefined"
  | some n => toString n

/-- Models JS truthiness of a possibly-undefined string (undefined and
the empty string are falsy). -/
def jsTruthyStr : Option String → Bool
  | none => false
  | some s => s ≠ ""

/-- Models JS truthiness of a possibly-undefined number (undefined and
0 are falsy). -/
def jsTruthyNum : Option Nat → Bool
  | none => false
  | some n => n ≠ 0

/-- Models fullName.split(" ").slice(-1)[0]: the last space-separated
word of a name. -/
def lastWord (s : String) : String := (s.splitOn " ").getLastD ""

/-! ## Data model: the fields of an MLB Stats API game object that
scoreboard.js reads.  Absent JSON fields are Option. -/

structure Person where
  fullName : Option String
deriving DecidableEq

structure PitchHand where
  code : Option String
deriving DecidableEq

structure StatSplit where
  summary : Option String
deriving DecidableEq

structure StatItem where
  stats : Option StatSplit
deriving DecidableEq

structure Pitcher where
  fullName : Option String
  pitchHand : Option PitchHand
  stats : Option (List StatItem)
deriving DecidableEq

structure Team where
  abbreviation : String
deriving DecidableEq

structure TeamSide where
  team : Team
  probablePitcher : Option Pitcher
deriving DecidableEq

structure GameTeams where
  home : TeamSide
  away : TeamSide
deriving DecidableEq

structure GameStatus where
  detailedState : String
deriving DecidableEq

structure LinescoreTeam where
  runs : Option Nat
  hits : Option Nat
  errors : Option Nat
deriving DecidableEq

structure LinescoreTeams where
  home : Option LinescoreTeam
  away : Option LinescoreTeam
deriving DecidableEq

structure Defense where
  pitcher : Option Person
  batter : Option Person
deriving DecidableEq

structure Offense where
  first : Option Person
  second : Option Person
  third : Option Person
deriving DecidableEq

structure Linescore where
  inningHalf : Option String
  currentInning : Option Nat
  teams : Option LinescoreTeams
  balls : Option Nat
  strikes : Option Nat
  outs : Option Nat
  defense : Option Defense
  offense : Option Offense
deriving DecidableEq

structure Decisions where
  winner : Option Person
  loser : Option Person
  save : Option Person
deriving DecidableEq

structure Game where
  teams : GameTeams
  status : GameStatus
  linescore : Option Linescore
  decisions : Option Decisions
deriving DecidableEq

/-- Embedding of formatProbablePitcher(pitcher).  Note: name is
computed (with default "-") but unused by the source; hand defaults to
"?"; the stats summary has NO default and a missing one interpolates
as the literal text "undefined". -/
def formatProbablePitcher (pitcher : Option Pitcher) : String :=
  let name := ((pitcher.bind fun p => p.fullName).map lastWord).getD "-"
  let hand := ((pitcher.bind fun p => p.pitchHand).bind fun h => h.code).getD "?"
  let stats := ((pitcher.bind fun p => p.stats).bind fun l => l[3]?).bind fun i =>
    i.stats.bind fun s => s.summary
  let _ := name
  hand ++ "HP " ++ jsUndefToString stats

/-- Models the inning descriptor: inningHalf and currentInning when
both are truthy, else the placeholder "-". -/
def inningStr (game : Game) : String :=
  let inningHalf := game.linescore.bind fun l => l.inningHalf
  let inningNum := game.linescore.bind fun l => l.currentInning
  if jsTruthyStr inningHalf && jsTruthyNum inningNum
  then jsUndefToString inningHalf ++ " " ++ jsNumToString inningNum
  else "-"

/-- Status-dependent chalk color: Final red, In Progress green,
anything else yellow (checked by substring, in that order). -/
def statusColor (status : String) (s : SStr) : SStr :=
  if jsIncludes status "Final" then chalkRed s
  else if jsIncludes status "In Progress" then chalkGreen s
  else chalkYellow s

/-- One team's strip of the line-score row: abbreviation then runs,
hits and errors, each field padded and defaulting to "-" when the
linescore side is absent. -/
def scoreStrip (abbr : String) (t : Option LinescoreTeam) : SStr :=
  padtoWidth (str abbr) 6 ++ str " " ++
  padtoWidth (str ("R:" ++ (((t.bind fun x => x.runs).map toString).getD "-"))) 5 ++ str " " ++
  padtoWidth (str ("H:" ++ (((t.bind fun x => x.hits).map toString).getD "-"))) 5 ++ str " " ++
  padtoWidth (str ("E:" ++ (((t.bind fun x => x.errors).map toString).getD "-"))) 5

/-- The four status-dependent content lines of a box: live counts and
bases for In Progress, decisions for Final, probable pitchers for
Scheduled/Pre-Game, blank filler otherwise.  The live branch calls
renderCircles, whose String.repeat can raise. -/
def statusLines (columnWidth : Nat) (game : Game) : Except String (List SStr) :=
  let status := game.status.detailedState
  let balls := (game.linescore.bind fun l => l.balls).getD 0
  let strikes := (game.linescore.bind fun l => l.strikes).getD 0
  let outs := (game.linescore.bind fun l => l.outs).getD 0
  let pitcher := ((((game.linescore.bind fun l => l.defense).bind fun d => d.pitcher).bind
    fun p => p.fullName).map lastWord).getD "?"
  let batter := ((((game.linescore.bind fun l => l.defense).bind fun d => d.batter).bind
    fun p => p.fullName).map lastWord).getD "?"
  let winner := (game.decisions.bind fun d => d.winner).bind fun p => p.fullName
  let loser := (game.decisions.bind fun d => d.loser).bind fun p => p.fullName
  let hasFirst := ((game.linescore.bind fun l => l.offense).bind fun o => o.first).isSome
  let hasSecond := ((game.linescore.bind fun l => l.offense).bind fun o => o.second).isSome
  let hasThird := ((game.linescore.bind fun l => l.offense).bind fun o => o.third).isSome
  let filled := "■"
  let emptyG := "□"
  let thirdBase := if hasThird then filled else emptyG
  let secondBase := if hasSecond then filled else emptyG
  let firstBase := if hasFirst then filled else emptyG
  if jsIncludes status "In Progress" then do
    let ballsC ← renderCircles balls 4 (str "🟢") (str "⚪")
    let strikesC ← renderCircles strikes 3 (str "🔴") (str "⚪")
    let outsC ← renderCircles outs 3 (str "🟡") (str "⚪")
    pure [
      padtoWidth (chalkCyan (str ("P: " ++ pitcher))) (columnWidth * 2 / 3) ++
        padtoWidth ballsC (columnWidth / 3),
      padtoWidth (chalkMagenta (str ("B: " ++ batter))) (columnWidth * 2 / 3) ++
        padtoWidth strikesC (columnWidth / 3),
      padtoWidth (str ("          " ++ secondBase)) (columnWidth * 2 / 3) ++
        padtoWidth outsC (columnWidth / 3),
      padtoWidth (str ("        " ++ thirdBase ++ "   " ++ firstBase)) columnWidth ]
  else if jsIncludes status "Final" then
    pure [
      padtoWidth (chalkCyan (str ("W: " ++ winner.getD "?"))) columnWidth,
      padtoWidth (chalkMagenta (str ("L: " ++ loser.getD "?"))) columnWidth,
      padtoWidth (chalkYellow (str ("S: " ++
        (((game.decisions.bind fun d => d.save).bind fun p => p.fullName).getD "-")))) columnWidth,
      padtoWidth (str " ") columnWidth ]
  else if jsIncludes status "Scheduled" || jsIncludes status "Pre-Game" then
    pure [
      padtoWidth (chalkCyan (str ("H: " ++
        ((game.teams.home.probablePitcher.bind fun p => p.fullName).getD "-")))) columnWidth,
      padtoWidth (chalkCyan (str (formatProbablePitcher game.teams.home.probablePitcher)))
        columnWidth,
      padtoWidth (chalkMagenta (str ("A: " ++
        ((game.teams.away.probablePitcher.bind fun p => p.fullName).getD "-")))) columnWidth,
      padtoWidth (chalkMagenta (str (formatProbablePitcher game.teams.away.probablePitcher)))
        columnWidth ]
  else
    pure [padtoWidth (str " ") columnWidth, padtoWidth (str " ") columnWidth,
      padtoWidth (str " ") columnWidth, padtoWidth (str " ") columnWidth]

/-- The nine content lines of a box: the five always-present lines
(matchup, status, inning, away and home line scores) followed by the
four status-dependent lines. -/
def contentLines (columnWidth : Nat) (game : Game) : Except String (List SStr) := do
  let home := game.teams.home.team.abbreviation
  let away := game.teams.away.team.abbreviation
  let status := game.status.detailedState
  let h := (game.linescore.bind fun l => l.teams).bind fun t => t.home
  let a := (game.linescore.bind fun l => l.teams).bind fun t => t.away
  let tail4 ← statusLines columnWidth game
  pure ([
    padtoWidth (chalkBoldWhite (str (away ++ " @ " ++ home))) columnWidth,
    padtoWidth (str "Status: " ++ statusColor status (str status)) columnWidth,
    padtoWidth (str ("Inning: " ++ inningStr game)) columnWidth,
    padtoWidth (chalkBgWhiteBlack (scoreStrip away a)) columnWidth,
    padtoWidth (chalkBgWhiteBlack (scoreStrip home h)) columnWidth ] ++ tail4)

/-- Top (and bottom) border line of a box. -/
def borderLine (columnWidth : Nat) : SStr :=
  chalkWhite (str ("+" ++ String.mk (List.replicate columnWidth '-') ++ "+"))

/-- A content line wrapped with left and right vertical border glyphs. -/
def wrapBar (line : SStr) : SStr := chalkWhite (str "|") ++ line ++ chalkWhite (str "|")

/-- Embedding of formatGameBox(game): border, wrapped content lines,
border. -/
def formatGameBox (columnWidth : Nat) (game : Game) : Except String (List SStr) := do
  let cl ← contentLines columnWidth game
  pure (borderLine columnWidth :: cl.map wrapBar ++ [borderLine columnWidth])

/-- Chunking of the grid loop (for i = 0; i < games.length;
i += gamesPerRow, taking games.slice(i, i + gamesPerRow)).  With
gamesPerRow = 0 the JS loop never terminates; modelled as no chunks —
the theorems assume a positive row size. -/
def chunks (n : Nat) (l : List α) : List (List α) :=
  if h : n = 0 ∨ l.isEmpty = true then []
  else l.take n :: chunks n (l.drop n)
termination_by l.length
decreasing_by
  push_neg at h
  have h2 : l ≠ [] := fun he => h.2 (by simp [he])
  have h1 : 0 < l.length := List.length_pos.mpr h2
  simp only [List.length_drop]
  omega

/-- Math.max over the box heights of a chunk. -/
def maxHeight (boxes : List (List SStr)) : Nat := (boxes.map List.length).foldr Nat.max 0

/-- Pads each box of a chunk to the chunk's maximum height with blank
lines of the column width. -/
def padBoxes (columnWidth : Nat) (boxes : List (List SStr)) : List (List SStr) :=
  boxes.map fun box =>
    box ++ List.replicate (maxHeight boxes - box.length) (List.replicate columnWidth (Tok.chr ' '))

/-- Array.prototype.join with a separator. -/
def joinWithSep (sep : SStr) : List SStr → SStr
  | [] => []
  | [x] => x
  | x :: y :: t => x ++ sep ++ joinWithSep sep (y :: t)

/-- The printed lines of one chunk: line-by-line across the padded
boxes, joined with two spaces. -/
def renderRow (columnWidth : Nat) (boxes : List (List SStr)) : List SStr :=
  let padded := padBoxes columnWidth boxes
  (List.range (maxHeight boxes)).map fun line =>
    joinWithSep (str "  ") (padded.map fun box => box.getD line [])

/-- Embedding of renderGameGrid(games, gamesPerRow, columnWidth) (JS
defaults 2 and 30): formats each chunk's games, pads and prints them
row by row with a blank spacing line after each chunk.  An error in
any box (a RangeError from renderCircles) aborts the render. -/
def renderGameGrid (games : List Game) (gamesPerRow columnWidth : Nat) :
    Except String (List SStr) := do
  let rows ← (chunks gamesPerRow games).mapM fun chunk => do
    let boxes ← chunk.mapM (formatGameBox columnWidth)
    pure (renderRow columnWidth boxes ++ [[]])
  pure rows.flatten

/-- Does a game involve the favorite team?  Models
[home, away].includes(FavTeam). -/
def hasFav (fav : String) (game : Game) : Bool :=
  game.teams.home.team.abbreviation == fav || game.teams.away.team.abbreviation == fav

/-- The comparator of the favorite-team sort as a boolean total
preorder: favOrder fav a b is true exactly when the JS comparator
returns a non-positive value (a sorts no later than b). -/
def favOrder (fav : String) (a b : Game) : Bool := hasFav fav a || !hasFav fav b

/-- Stable insertion of x before the first element it sorts no later
than. -/
def insertLe (le : α → α → Bool) (x : α) : List α → List α
  | [] => [x]
  | y :: ys => if le x y then x :: y :: ys else y :: insertLe le x ys

/-- Stable insertion sort.  ES2019 requires Array.prototype.sort to be
stable; for a consistent comparator a stable sorted permutation is
unique, so this computes the same list the JS engine does. -/
def stableSort (le : α → α → Bool) : List α → List α
  | [] => []
  | x :: xs => insertLe le x (stableSort le xs)

/-- Embedding of games.sort(comparator) under the favorite-team flag. -/
def favSort (fav : String) (games : List Game) : List Game :=
  stableSort (favOrder fav) games

structure DateEntry where
  games : List Game
deriving DecidableEq

structure ScheduleData where
  dates : Option (List DateEntry)
deriving DecidableEq

/-- Modelled from the spec: the figlet ASCII-art title banner is drawn
by the external figlet library; represented here by its input text. -/
def figletText (s : String) : SStr := str s

/-- The banner printed before the grid: the figlet title and the date. -/
def bannerLines (today : String) : List SStr :=
  [chalkGreenBold (figletText "MLB Box Scores"), chalkBoldGreen (str today)]

/-- Embedding of the top-level script: reads dates[0].games (with []
fallback), prints "No Games found." and exits 0 when empty, otherwise
prints the banner, reorders when the favorite-team flag is truthy, and
renders the grid with 3 games per row.  Result: the printed lines and
the exit status; an uncaught RangeError is the error case. -/
def runProgram (today : String) (favTeam : Option String) (data : ScheduleData) :
    Except String (List SStr × Nat) :=
  let games := ((data.dates.bind fun l => l.head?).map fun d => d.games).getD []
  if games.length = 0 then Except.ok ([str "No Games found."], 0)
  else
    let sorted := if jsTruthyStr favTeam then favSort (favTeam.getD "") games else games
    match renderGameGrid sorted 3 30 with
    | Except.error e => Except.error e
    | Except.ok grid => Except.ok (bannerLines today ++ grid, 0)

/-! ## Helper lemmas -/

theorem stringWidth_append (s t : SStr) :
    stringWidth (s ++ t) = stringWidth s + stringWidth t := by
  simp [stringWidth]

theorem stringWidth_replicate_space (n : Nat) :
    stringWidth (List.replicate n (Tok.chr ' ')) = n := by
  simp [stringWidth, List.map_replicate, List.sum_replicate, tokWidth, charWidth]

theorem flatten_replicate_singleton (n : Nat) (x : α) :
    (List.replicate n [x]).flatten = List.replicate n x := by
  induction n with
  | zero => rfl
  | succ n ih => simp [List.replicate_succ, ih]

/-! ## C3: the width-aware padder -/

/-- C3: for every styled string S and target width W, the visible width
of padtoWidth(S, W) is at least W; and when the visible width of S is
already at least W the string is returned unchanged (never truncated). -/
theorem padtoWidth_spec (s : SStr) (w : Nat) :
    w ≤ stringWidth (padtoWidth s w)
    ∧ (w ≤ stringWidth s → padtoWidth s w = s) := by
  constructor
  · rw [padtoWidth, stringWidth_append, stringWidth_replicate_space]
    omega
  · intro h
    rw [padtoWidth, Nat.sub_eq_zero_of_le h]
    simp

/-- Witness for C3 at a concrete already-wide string and width. -/
theorem padtoWidth_spec_witness :
    3 ≤ stringWidth (padtoWidth (str "abcdef") 3)
    ∧ (3 ≤ stringWidth (str "abcdef") → padtoWidth (str "abcdef") 3 = str "abcdef") :=
  padtoWidth_spec (str "abcdef") 3

/-! ## C4 and C5: the indicator renderer -/

theorem jsRepeat_nonneg (s : SStr) (n : Int) (h : 0 ≤ n) :
    jsRepeat s n = Except.ok (List.flatten (List.replicate n.toNat s)) := by
  rw [jsRepeat, if_neg (by omega)]

/-- C4: for 0 ≤ count ≤ total, renderCircles returns (no error) a
sequence of exactly total glyphs, whose first count entries are the
filled glyph and whose remaining total − count entries are the empty
glyph. -/
theorem renderCircles_spec (count total : Int) (f e : Tok)
    (h0 : 0 ≤ count) (hct : count ≤ total) :
    renderCircles count total [f] [e]
      = Except.ok (List.replicate count.toNat f ++ List.replicate (total - count).toNat e)
    ∧ (List.replicate count.toNat f ++ List.replicate (total - count).toNat e).length
      = total.toNat
    ∧ (List.replicate count.toNat f ++ List.replicate (total - count).toNat e).take count.toNat
      = List.replicate count.toNat f
    ∧ (List.replicate count.toNat f ++ List.replicate (total - count).toNat e).drop count.toNat
      = List.replicate (total - count).toNat e := by
  refine ⟨?_, ?_, ?_, ?_⟩
  · rw [renderCircles]
    rw [jsRepeat_nonneg _ _ h0, jsRepeat_nonneg _ _ (by omega)]
    rw [flatten_replicate_singleton, flatten_replicate_singleton]
    rfl
  · simp only [List.length_append, List.length_replicate]
    omega
  · rw [List.take_left' (by simp)]
  · rw [List.drop_left' (by simp)]

/-- Witness for C4 at count 2 of total 4 with the live ball glyphs. -/
theorem renderCircles_spec_witness :
    renderCircles 2 4 [Tok.chr '■'] [Tok.chr '□']
      = Except.ok (List.replicate (Int.toNat 2) (Tok.chr '■')
          ++ List.replicate (Int.toNat (4 - 2)) (Tok.chr '□'))
    ∧ (List.replicate (Int.toNat 2) (Tok.chr '■')
          ++ List.replicate (Int.toNat (4 - 2)) (Tok.chr '□')).length = Int.toNat 4
    ∧ (List.replicate (Int.toNat 2) (Tok.chr '■')
          ++ List.replicate (Int.toNat (4 - 2)) (Tok.chr '□')).take (Int.toNat 2)
      = List.replicate (Int.toNat 2) (Tok.chr '■')
    ∧ (List.replicate (Int.toNat 2) (Tok.chr '■')
          ++ List.replicate (Int.toNat (4 - 2)) (Tok.chr '□')).drop (Int.toNat 2)
      = List.replicate (Int.toNat (4 - 2)) (Tok.chr '□') :=
  renderCircles_spec 2 4 (Tok.chr '■') (Tok.chr '□') (by decide) (by decide)

/-- C5 counterexample: with count 4 greater than total 3 renderCircles
does NOT return a rendered string normally — repeating the empty glyph
a negative number of times raises a RangeError, contradicting the
claim that an out-of-range count is at worst cosmetic. -/
theorem renderCircles_over_total_cex :
    renderCircles 4 3 (str "■") (str "□")
      = Except.error "RangeError: Invalid count value" := by
  rfl

/-- C5 amended: whenever count exceeds total, renderCircles raises a
RangeError (String.repeat with a negative count) instead of returning
an indicator string. -/
theorem renderCircles_over_total (count total : Int) (filled e : SStr)
    (h : total < count) :
    renderCircles count total filled e
      = Except.error "RangeError: Invalid count value" := by
  by_cases h0 : count < 0
  · rw [renderCircles]
    simp only [jsRepeat, if_pos h0]
    rfl
  · rw [renderCircles]
    rw [jsRepeat_nonneg _ _ (by omega)]
    simp only [jsRepeat, if_pos (by omega : total - count < 0)]
    rfl

/-- Witness for the amended C5 at count 5 of total 3. -/
theorem renderCircles_over_total_witness :
    renderCircles 5 3 (str "■") (str "□")
      = Except.error "RangeError: Invalid count value" :=
  renderCircles_over_total 5 3 (str "■") (str "□") (by decide)

/-! ## C6: the favorite-team reordering -/

theorem insertLe_all_le (le : α → α → Bool) (x : α) (l : List α)
    (h : ∀ y ∈ l, le x y = true) : insertLe le x l = x :: l := by
  cases l with
  | nil => rfl
  | cons y ys => rw [insertLe, if_pos (h y (by simp))]

theorem insertLe_append (le : α → α → Bool) (x : α) (l1 l2 : List α)
    (h1 : ∀ y ∈ l1, le x y = false) (h2 : ∀ y ∈ l2, le x y = true) :
    insertLe le x (l1 ++ l2) = l1 ++ x :: l2 := by
  induction l1 with
  | nil => simpa using insertLe_all_le le x l2 h2
  | cons y ys ih =>
    rw [List.cons_append, insertLe, if_neg (by simp [h1 y (by simp)])]
    rw [ih (fun z hz => h1 z (by simp [hz]))]
    rfl

/-- C6: sorting with the favorite-team comparator is exactly the stable
partition — all games involving the favorite team come first, and the
relative order inside each part (expressed as a filter of the original
list) is preserved. -/
theorem favSort_stable_partition (fav : String) (games : List Game) :
    favSort fav games
      = games.filter (fun g => hasFav fav g)
        ++ games.filter (fun g => !hasFav fav g) := by
  unfold favSort
  induction games with
  | nil => rfl
  | cons g gs ih =>
    rw [stableSort, ih]
    by_cases hg : hasFav fav g
    · rw [insertLe_all_le _ _ _ (fun y _ => by simp [favOrder, hg])]
      simp [List.filter_cons, hg]
    · rw [insertLe_append _ _ _ _
        (fun y hy => by
          simp only [List.mem_filter] at hy
          simp [favOrder, hg, hy.2])
        (fun y hy => by
          simp only [List.mem_filter, Bool.not_eq_eq_eq_not, Bool.not_true] at hy
          simp [favOrder, hg, hy.2])]
      simp [List.filter_cons, hg]

/-! ## C7: the empty-games path of the top-level script -/

/-- C7: when the fetched data has no games (dates missing or the first
date's game list empty), the program prints exactly "No Games found.",
renders no grid and no banner, and exits with status 0. -/
theorem runProgram_no_games (today : String) (fav : Option String)
    (data : ScheduleData)
    (h : ((data.dates.bind fun l => l.head?).map fun d => d.games).getD [] = []) :
    runProgram today fav data = Except.ok ([str "No Games found."], 0) := by
  rw [runProgram, h]
  rfl

/-- Witness for C7: a response whose dates field is missing. -/
theorem runProgram_no_games_witness :
    runProgram "2026-10-11" none ⟨none⟩ = Except.ok ([str "No Games found."], 0) :=
  runProgram_no_games "2026-10-11" none ⟨none⟩ rfl

/-! ## C1: grid chunking -/

theorem chunks_nil (n : Nat) : chunks n ([] : List α) = [] := by
  rw [chunks]
  simp

theorem chunks_cons (n : Nat) (hn : 0 < n) (l : List α) (hne : l ≠ []) :
    chunks n l = l.take n :: chunks n (l.drop n) := by
  rw [chunks]
  rw [dif_neg]
  push_neg
  exact ⟨by omega, by simp [List.isEmpty_iff, hne]⟩

theorem chunks_ne_nil (n : Nat) (hn : 0 < n) (l : List α) (hne : l ≠ []) :
    chunks n l ≠ [] := by
  rw [chunks_cons n hn l hne]
  simp

theorem chunks_flatten (n : Nat) (hn : 0 < n) (l : List α) :
    (chunks n l).flatten = l := by
  by_cases hne : l = []
  · subst hne
    rw [chunks_nil]
    rfl
  · rw [chunks_cons n hn l hne]
    have ih := chunks_flatten n hn (l.drop n)
    simp [ih]
termination_by l.length
decreasing_by
  have h1 : 0 < l.length := List.length_pos.mpr hne
  simp only [List.length_drop]
  omega

theorem chunks_length (n : Nat) (hn : 0 < n) (l : List α) :
    (chunks n l).length = (l.length + n - 1) / n := by
  by_cases hne : l = []
  · subst hne
    rw [chunks_nil]
    simp [Nat.div_eq_of_lt (by omega : n - 1 < n)]
  · rw [chunks_cons n hn l hne]
    have hlen : 0 < l.length := List.length_pos.mpr hne
    have ih := chunks_length n hn (l.drop n)
    simp only [List.length_cons, ih, List.length_drop]
    rcases le_or_lt n l.length with hle | hlt
    · have e1 : l.length - n + n - 1 = l.length - 1 := by omega
      have e2 : l.length + n - 1 = (l.length - 1) + n := by omega
      rw [e1, e2, Nat.add_div_right _ hn]
    · have e1 : l.length - n + n - 1 = n - 1 := by omega
      have e2 : (n - 1) / n = 0 := Nat.div_eq_of_lt (by omega)
      have e3 : l.length + n - 1 = (l.length - 1) + n := by omega
      have e4 : (l.length - 1) / n = 0 := Nat.div_eq_of_lt (by omega)
      rw [e1, e2, e3, Nat.add_div_right _ hn, e4]
termination_by l.length
decreasing_by
  have h1 : 0 < l.length := List.length_pos.mpr hne
  simp only [List.length_drop]
  omega

theorem chunks_getLast (n : Nat) (hn : 0 < n) (l : List α) (hne : l ≠ []) :
    ((chunks n l).getLast?).map List.length
      = some (if l.length % n = 0 then n else l.length % n) := by
  rw [chunks_cons n hn l hne]
  have hlen : 0 < l.length := List.length_pos.mpr hne
  by_cases hd : l.drop n = []
  · have hL : l.length ≤ n := by
      have := congrArg List.length hd
      simp only [List.length_drop, List.length_nil] at this
      omega
    rw [hd, chunks_nil]
    have htk : (l.take n).length = l.length := by
      simp only [List.length_take]
      omega
    simp only [List.getLast?_singleton, Option.map_some']
    rw [htk]
    by_cases he : l.length = n
    · rw [he, Nat.mod_self, if_pos rfl]
    · rw [Nat.mod_eq_of_lt (by omega), if_neg (by omega)]
  · have hL : n < l.length := by
      by_contra hc
      push_neg at hc
      exact hd (List.drop_eq_nil_of_le hc)
    have ih := chunks_getLast n hn (l.drop n) hd
    rcases hx : chunks n (l.drop n) with _ | ⟨c, cs⟩
    · exact absurd hx (chunks_ne_nil n hn (l.drop n) hd)
    · rw [List.getLast?_cons_cons]
      rw [hx] at ih
      have hmod : l.length % n = (l.length - n) % n := by
        conv_lhs => rw [show l.length = (l.length - n) + n from by omega]
        rw [Nat.add_mod_right]
      rw [hmod]
      simpa [List.length_drop] using ih
termination_by l.length
decreasing_by
  simp only [List.length_drop]
  omega

/-- C1: for a positive per-row size n, the grid loop partitions the
game list into consecutive chunks: there are Lceil = (L + n - 1) / n
rows, their concatenation is the original list in order, and the last
row holds L mod n games (or n games when n divides L). -/
theorem chunks_grid_spec (n : Nat) (hn : 0 < n) (games : List Game) :
    (chunks n games).length = (games.length + n - 1) / n
    ∧ (chunks n games).flatten = games
    ∧ (games ≠ [] → ((chunks n games).getLast?).map List.length
        = some (if games.length % n = 0 then n else games.length % n)) :=
  ⟨chunks_length n hn games, chunks_flatten n hn games,
    fun hne => chunks_getLast n hn games hne⟩

/-! ## Concrete example games for witnesses -/

def exTeams : GameTeams := ⟨⟨⟨"NYY"⟩, none⟩, ⟨⟨"BOS"⟩, none⟩⟩

def exGameFinal : Game :=
  ⟨exTeams, ⟨"Final"⟩, none,
    some ⟨some ⟨some "A Pitcher"⟩, some ⟨some "B Pitcher"⟩, none⟩⟩

def exGameSched : Game :=
  ⟨⟨⟨⟨"NYY"⟩, some ⟨some "Gerrit Cole", some ⟨some "R"⟩, none⟩⟩, ⟨⟨"BOS"⟩, none⟩⟩,
    ⟨"Scheduled"⟩, none, none⟩

def exGameLive : Game :=
  ⟨exTeams, ⟨"In Progress"⟩,
    some ⟨some "Top", some 3, none, some 2, some 1, some 0,
      some ⟨some ⟨some "John Smith"⟩, some ⟨some "Al Jones"⟩⟩,
      some ⟨none, some ⟨some "On Second"⟩, none⟩⟩,
    none⟩

def exGameBadBalls : Game :=
  ⟨exTeams, ⟨"In Progress"⟩,
    some ⟨none, none, none, some 5, none, none, none, none⟩, none⟩

/-- Witness for C1 at row size 2 over a concrete three-game list. -/
theorem chunks_grid_spec_witness :
    (chunks 2 [exGameFinal, exGameSched, exGameLive]).length
      = ([exGameFinal, exGameSched, exGameLive].length + 2 - 1) / 2
    ∧ (chunks 2 [exGameFinal, exGameSched, exGameLive]).flatten
      = [exGameFinal, exGameSched, exGameLive]
    ∧ ([exGameFinal, exGameSched, exGameLive] ≠ [] →
        ((chunks 2 [exGameFinal, exGameSched, exGameLive]).getLast?).map List.length
          = some (if [exGameFinal, exGameSched, exGameLive].length % 2 = 0
              then 2 else [exGameFinal, exGameSched, exGameLive].length % 2)) :=
  chunks_grid_spec 2 (by decide) [exGameFinal, exGameSched, exGameLive]

/-! ## C2: row padding inside a chunk -/

theorem le_maxHeight (boxes : List (List SStr)) (b : List SStr) (hb : b ∈ boxes) :
    b.length ≤ maxHeight boxes := by
  induction boxes with
  | nil => cases hb
  | cons x xs ih =>
    rcases List.mem_cons.mp hb with h | h
    · subst h
      exact Nat.le_max_left _ _
    · exact Nat.le_trans (ih h) (Nat.le_max_right _ _)

theorem maxHeight_mem (boxes : List (List SStr)) (hne : boxes ≠ []) :
    maxHeight boxes ∈ boxes.map List.length := by
  induction boxes with
  | nil => exact absurd rfl hne
  | cons x xs ih =>
    cases xs with
    | nil => simp [maxHeight]
    | cons y ys =>
      rcases Nat.le_total x.length (maxHeight (y :: ys)) with h | h
      · have : maxHeight (x :: y :: ys) = maxHeight (y :: ys) := by
          simp only [maxHeight, List.map_cons, List.foldr_cons]
          exact Nat.max_eq_right h
        rw [this]
        exact List.mem_cons_of_mem _ (ih (by simp))
      · have : maxHeight (x :: y :: ys) = x.length := by
          simp only [maxHeight, List.map_cons, List.foldr_cons]
          exact Nat.max_eq_left h
        rw [this]
        exact List.mem_cons_self _ _

theorem padBoxes_getD (w i : Nat) (boxes : List (List SStr)) (hi : i < boxes.length) :
    (padBoxes w boxes).getD i []
      = boxes.getD i [] ++ List.replicate (maxHeight boxes - (boxes.getD i []).length)
          (List.replicate w (Tok.chr ' ')) := by
  unfold padBoxes
  rw [List.getD_eq_getElem?_getD, List.getElem?_map,
    List.getElem?_eq_getElem hi, List.getD_eq_getElem?_getD,
    List.getElem?_eq_getElem hi]
  rfl

/-- C2: for each position i of a chunk of boxes, the padded box at i is
the original box followed by blank filler lines of exactly the column
width, its line count equals the chunk's maximum height, that maximum
bounds every original box height and is attained by one of them. -/
theorem padBoxes_pad_spec (w i : Nat) (boxes : List (List SStr))
    (hi : i < boxes.length) :
    ((padBoxes w boxes).getD i []).length = maxHeight boxes
    ∧ (padBoxes w boxes).getD i []
        = boxes.getD i [] ++ List.replicate (maxHeight boxes - (boxes.getD i []).length)
            (List.replicate w (Tok.chr ' '))
    ∧ (∀ b ∈ boxes, b.length ≤ maxHeight boxes)
    ∧ maxHeight boxes ∈ boxes.map List.length := by
  have hmem : boxes.getD i [] ∈ boxes := by
    rw [List.getD_eq_getElem?_getD, List.getElem?_eq_getElem hi]
    exact List.getElem_mem hi
  refine ⟨?_, padBoxes_getD w i boxes hi, fun b hb => le_maxHeight boxes b hb,
    maxHeight_mem boxes (List.ne_nil_of_length_pos (by omega))⟩
  rw [padBoxes_getD w i boxes hi]
  have hle : (boxes.getD i []).length ≤ maxHeight boxes :=
    le_maxHeight boxes _ hmem
  simp only [List.length_append, List.length_replicate]
  omega

/-- Witness for C2 at a ragged two-box chunk of width 4. -/
theorem padBoxes_pad_spec_witness :
    ((padBoxes 4 [[str "a"], [str "b", str "c"]]).getD 0 []).length
      = maxHeight [[str "a"], [str "b", str "c"]]
    ∧ (padBoxes 4 [[str "a"], [str "b", str "c"]]).getD 0 []
        = [[str "a"], [str "b", str "c"]].getD 0 []
          ++ List.replicate (maxHeight [[str "a"], [str "b", str "c"]]
              - (([[str "a"], [str "b", str "c"]].getD 0 []).length))
            (List.replicate 4 (Tok.chr ' '))
    ∧ (∀ b ∈ [[str "a"], [str "b", str "c"]], b.length ≤ maxHeight [[str "a"], [str "b", str "c"]])
    ∧ maxHeight [[str "a"], [str "b", str "c"]] ∈ [[str "a"], [str "b", str "c"]].map List.length :=
  padBoxes_pad_spec 4 0 [[str "a"], [str "b", str "c"]] (by decide)

/-! ## Branch lemmas for the box formatter -/

theorem renderCircles_ok (count total : Int) (f e : SStr)
    (h0 : 0 ≤ count) (hct : count ≤ total) :
    renderCircles count total f e
      = Except.ok ((List.replicate count.toNat f).flatten
          ++ (List.replicate (total - count).toNat e).flatten) := by
  rw [renderCircles, jsRepeat_nonneg _ _ h0, jsRepeat_nonneg _ _ (by omega)]
  rfl

theorem statusLines_final (w : Nat) (g : Game)
    (hlive : jsIncludes g.status.detailedState "In Progress" = false)
    (hfin : jsIncludes g.status.detailedState "Final" = true) :
    statusLines w g = Except.ok [
      padtoWidth (chalkCyan (str ("W: "
        ++ (((g.decisions.bind fun d => d.winner).bind fun p => p.fullName).getD "?")))) w,
      padtoWidth (chalkMagenta (str ("L: "
        ++ (((g.decisions.bind fun d => d.loser).bind fun p => p.fullName).getD "?")))) w,
      padtoWidth (chalkYellow (str ("S: "
        ++ (((g.decisions.bind fun d => d.save).bind fun p => p.fullName).getD "-")))) w,
      padtoWidth (str " ") w ] := by
  simp only [statusLines]
  rw [if_neg (by simp [hlive]), if_pos hfin]
  rfl

/-! ## C9: the Final decisions block -/

/-- C9: for a Final (and not live) game whose decisions name winner
"A Pitcher" and loser "B Pitcher" with no save entry, the box's three
decision lines (box lines 6..8, after border and the five header
lines) show W: A Pitcher, L: B Pitcher and the save placeholder S: -. -/
theorem formatGameBox_final (w : Nat) (g : Game)
    (hlive : jsIncludes g.status.detailedState "In Progress" = false)
    (hfin : jsIncludes g.status.detailedState "Final" = true)
    (hwin : ((g.decisions.bind fun d => d.winner).bind fun p => p.fullName)
      = some "A Pitcher")
    (hlos : ((g.decisions.bind fun d => d.loser).bind fun p => p.fullName)
      = some "B Pitcher")
    (hsav : (g.decisions.bind fun d => d.save) = none) :
    (formatGameBox w g).map (fun box => (box.drop 6).take 3) = Except.ok [
      wrapBar (padtoWidth (chalkCyan (str "W: A Pitcher")) w),
      wrapBar (padtoWidth (chalkMagenta (str "L: B Pitcher")) w),
      wrapBar (padtoWidth (chalkYellow (str "S: -")) w) ] := by
  have h4 := statusLines_final w g hlive hfin
  rw [hwin, hlos, hsav] at h4
  simp only [Option.none_bind, Option.getD_some, Option.getD_none] at h4
  unfold formatGameBox contentLines
  rw [h4]
  rfl

/-- Witness for C9 at the concrete Final game and width 30. -/
theorem formatGameBox_final_witness :
    (formatGameBox 30 exGameFinal).map (fun box => (box.drop 6).take 3) = Except.ok [
      wrapBar (padtoWidth (chalkCyan (str "W: A Pitcher")) 30),
      wrapBar (padtoWidth (chalkMagenta (str "L: B Pitcher")) 30),
      wrapBar (padtoWidth (chalkYellow (str "S: -")) 30) ] :=
  formatGameBox_final 30 exGameFinal rfl rfl rfl rfl rfl

/-! ## C8: the Scheduled/Pre-Game probable-pitcher block -/

/-- C8 counterexample: a probable pitcher whose hand is recorded but
whose stats array is absent.  The derived summary is "RHP undefined":
the hand defaults correctly, but the missing stats summary is rendered
as the literal JS text "undefined", not as a placeholder glyph ("-"
and "?" are the placeholders this program uses). -/
theorem formatProbablePitcher_missing_stats_cex :
    formatProbablePitcher (some ⟨some "John Doe", some ⟨some "R"⟩, none⟩)
      = "RHP undefined"
    ∧ "RHP undefined" ≠ "RHP -" ∧ "RHP undefined" ≠ "RHP ?" :=
  ⟨rfl, by decide, by decide⟩

/-- C8 amended: for a Scheduled/Pre-Game (and neither live nor Final)
game, the status block shows, for home then away, the probable
pitcher's name (placeholder "-" when missing) and the derived summary
hand + "HP " + stats; the hand defaults to the placeholder "?" when
missing, but a missing stats summary is interpolated as the literal
text "undefined" rather than a placeholder glyph. -/
theorem statusLines_scheduled_amended (w : Nat) (g : Game)
    (hlive : jsIncludes g.status.detailedState "In Progress" = false)
    (hfin : jsIncludes g.status.detailedState "Final" = false)
    (hsch : (jsIncludes g.status.detailedState "Scheduled"
        || jsIncludes g.status.detailedState "Pre-Game") = true) :
    statusLines w g = Except.ok [
      padtoWidth (chalkCyan (str ("H: "
        ++ ((g.teams.home.probablePitcher.bind fun p => p.fullName).getD "-")))) w,
      padtoWidth (chalkCyan (str (formatProbablePitcher g.teams.home.probablePitcher))) w,
      padtoWidth (chalkMagenta (str ("A: "
        ++ ((g.teams.away.probablePitcher.bind fun p => p.fullName).getD "-")))) w,
      padtoWidth (chalkMagenta (str (formatProbablePitcher g.teams.away.probablePitcher))) w ]
    ∧ formatProbablePitcher none = "?HP undefined" := by
  refine ⟨?_, rfl⟩
  simp only [statusLines]
  rw [if_neg (by simp [hlive]), if_neg (by simp [hfin]), if_pos hsch]
  rfl

/-- Witness for the amended C8 at the concrete Scheduled game (home
probable pitcher present with hand R and no stats, away missing). -/
theorem statusLines_scheduled_amended_witness :
    statusLines 30 exGameSched = Except.ok [
      padtoWidth (chalkCyan (str ("H: "
        ++ ((exGameSched.teams.home.probablePitcher.bind fun p => p.fullName).getD "-")))) 30,
      padtoWidth (chalkCyan (str (formatProbablePitcher exGameSched.teams.home.probablePitcher))) 30,
      padtoWidth (chalkMagenta (str ("A: "
        ++ ((exGameSched.teams.away.probablePitcher.bind fun p => p.fullName).getD "-")))) 30,
      padtoWidth (chalkMagenta (str (formatProbablePitcher exGameSched.teams.away.probablePitcher))) 30 ]
    ∧ formatProbablePitcher none = "?HP undefined" :=
  statusLines_scheduled_amended 30 exGameSched rfl rfl rfl

/-! ## C10: constant box height and zero grid padding -/

theorem statusLines_map_length (w : Nat) (g : Game)
    (hb : (g.linescore.bind fun l => l.balls).getD 0 ≤ 4)
    (hstk : (g.linescore.bind fun l => l.strikes).getD 0 ≤ 3)
    (ho : (g.linescore.bind fun l => l.outs).getD 0 ≤ 3) :
    (statusLines w g).map List.length = Except.ok 4 := by
  simp only [statusLines]
  by_cases h1 : jsIncludes g.status.detailedState "In Progress" = true
  · rw [if_pos h1]
    rw [renderCircles_ok ((g.linescore.bind fun l => l.balls).getD 0) 4
        (str "🟢") (str "⚪") (by exact_mod_cast Nat.zero_le _) (by exact_mod_cast hb),
      renderCircles_ok ((g.linescore.bind fun l => l.strikes).getD 0) 3
        (str "🔴") (str "⚪") (by exact_mod_cast Nat.zero_le _) (by exact_mod_cast hstk),
      renderCircles_ok ((g.linescore.bind fun l => l.outs).getD 0) 3
        (str "🟡") (str "⚪") (by exact_mod_cast Nat.zero_le _) (by exact_mod_cast ho)]
    rfl
  · rw [if_neg h1]
    by_cases h2 : jsIncludes g.status.detailedState "Final" = true
    · rw [if_pos h2]
      rfl
    · rw [if_neg h2]
      by_cases h3 : (jsIncludes g.status.detailedState "Scheduled"
          || jsIncludes g.status.detailedState "Pre-Game") = true
      · rw [if_pos h3]
        rfl
      · rw [if_neg h3]
        rfl

theorem formatGameBox_map_length (w : Nat) (g : Game)
    (hb : (g.linescore.bind fun l => l.balls).getD 0 ≤ 4)
    (hstk : (g.linescore.bind fun l => l.strikes).getD 0 ≤ 3)
    (ho : (g.linescore.bind fun l => l.outs).getD 0 ≤ 3) :
    (formatGameBox w g).map List.length = Except.ok 11 := by
  have hsl := statusLines_map_length w g hb hstk ho
  cases hx : statusLines w g with
  | error e =>
    rw [hx] at hsl
    exact absurd hsl (by simp [Except.map])
  | ok ls =>
    rw [hx] at hsl
    have hlen : ls.length = 4 := by
      simpa [Except.map] using hsl
    unfold formatGameBox contentLines
    rw [hx]
    show Except.ok _ = _
    simp [hlen]

theorem maxHeight_le (boxes : List (List SStr)) (k : Nat)
    (h : ∀ b ∈ boxes, b.length ≤ k) : maxHeight boxes ≤ k := by
  induction boxes with
  | nil => exact Nat.zero_le k
  | cons x xs ih =>
    have hx : maxHeight (x :: xs) = Nat.max x.length (maxHeight xs) := rfl
    rw [hx]
    exact Nat.max_le.mpr ⟨h x (by simp), ih (fun b hb => h b (by simp [hb]))⟩

theorem padBoxes_id (w : Nat) (boxes : List (List SStr))
    (h : ∀ b ∈ boxes, b.length = 11) : padBoxes w boxes = boxes := by
  have hmax : maxHeight boxes ≤ 11 :=
    maxHeight_le boxes 11 (fun b hb => Nat.le_of_eq (h b hb))
  unfold padBoxes
  have heach : ∀ b ∈ boxes,
      b ++ List.replicate (maxHeight boxes - b.length)
        (List.replicate w (Tok.chr ' ')) = b := by
    intro b hb
    rw [show maxHeight boxes - b.length = 0 from by
      have := h b hb
      omega]
    simp
  rw [List.map_congr_left heach]
  exact List.map_id' boxes

theorem mapM_formatGameBox_ok (w : Nat) (chunk : List Game)
    (h : ∀ g ∈ chunk, (g.linescore.bind fun l => l.balls).getD 0 ≤ 4
      ∧ (g.linescore.bind fun l => l.strikes).getD 0 ≤ 3
      ∧ (g.linescore.bind fun l => l.outs).getD 0 ≤ 3) :
    ∃ boxes, chunk.mapM (formatGameBox w) = Except.ok boxes
      ∧ boxes.map List.length = List.replicate chunk.length 11 := by
  induction chunk with
  | nil => exact ⟨[], rfl, rfl⟩
  | cons g gs ih =>
    obtain ⟨h1, h2, h3⟩ := h g (by simp)
    have hg := formatGameBox_map_length w g h1 h2 h3
    cases hbox : formatGameBox w g with
    | error e =>
      rw [hbox] at hg
      exact absurd hg (by simp [Except.map])
    | ok box =>
      rw [hbox] at hg
      have hlen : box.length = 11 := by simpa [Except.map] using hg
      obtain ⟨boxes, hb1, hb2⟩ := ih (fun x hx => h x (by simp [hx]))
      refine ⟨box :: boxes, ?_, ?_⟩
      · rw [List.mapM_cons, hbox, hb1]
        rfl
      · simp [hb2, hlen, List.replicate_succ]

/-- C10 counterexample: a live game record whose ball count 5 exceeds
the 4 indicator slots.  formatGameBox does not return an 11-line box —
the ball-indicator call raises a RangeError and rendering aborts. -/
theorem formatGameBox_live_overflow_cex :
    (formatGameBox 30 exGameBadBalls).map List.length ≠ Except.ok 11
    ∧ formatGameBox 30 exGameBadBalls
        = Except.error "RangeError: Invalid count value" := by
  have h : formatGameBox 30 exGameBadBalls
      = Except.error "RangeError: Invalid count value" := by rfl
  refine ⟨?_, h⟩
  rw [h]
  simp [Except.map]

/-- C10 amended: for every chunk of game records whose ball, strike and
out counts do not exceed the indicator totals (4, 3 and 3 — all records
the feed produces), every formatted box has exactly 11 lines, so the
chunk's maximum box height equals every box's height and the grid
padding step adds zero lines (it returns the boxes unchanged). -/
theorem formatGameBox_fixed_height (w : Nat) (chunk : List Game)
    (h : ∀ g ∈ chunk, (g.linescore.bind fun l => l.balls).getD 0 ≤ 4
      ∧ (g.linescore.bind fun l => l.strikes).getD 0 ≤ 3
      ∧ (g.linescore.bind fun l => l.outs).getD 0 ≤ 3) :
    (chunk.mapM (formatGameBox w)).map (List.map List.length)
      = Except.ok (List.replicate chunk.length 11)
    ∧ (chunk.mapM (formatGameBox w)).map (padBoxes w)
      = chunk.mapM (formatGameBox w) := by
  obtain ⟨boxes, h1, h2⟩ := mapM_formatGameBox_ok w chunk h
  have hall : ∀ b ∈ boxes, b.length = 11 := by
    intro b hb
    have hmem : b.length ∈ boxes.map List.length := List.mem_map_of_mem _ hb
    rw [h2] at hmem
    exact List.eq_of_mem_replicate hmem
  constructor
  · rw [h1]
    simp [Except.map, h2]
  · rw [h1]
    simp [Except.map, padBoxes_id w boxes hall]

/-- Witness for the amended C10 at a concrete two-game chunk (one live
with in-range counts, one Final) and width 30. -/
theorem formatGameBox_fixed_height_witness :
    ([exGameLive, exGameFinal].mapM (formatGameBox 30)).map (List.map List.length)
      = Except.ok (List.replicate [exGameLive, exGameFinal].length 11)
    ∧ ([exGameLive, exGameFinal].mapM (formatGameBox 30)).map (padBoxes 30)
      = [exGameLive, exGameFinal].mapM (formatGameBox 30) :=
  formatGameBox_fixed_height 30 [exGameLive, exGameFinal] (by decide)

end Scoreboard
